import Mathlib

/-! Verification of the in-process resilience layer of the SBESZooMuseum
backend: the sliding-window rate limiter and the circuit breaker
(`backend/rate_limiter.py`), the TTL cache (`backend/caching.py`) and the
graceful-shutdown coordinator (`backend/shutdown_manager.py`).

Time is modelled as an integer count of seconds (the verified properties
do not depend on sub-second resolution).  Python exceptions are modelled
as explicit result values; an uncaught `IndexError` is modelled by
`Option.none`. -/

/-! ## Sliding-window rate limiter (`RateLimiter.check_rate_limit`) -/

/-- Line 73 of `rate_limiter.py`: keep only timestamps strictly inside the
trailing one-hour window (`ts > now - 1h`). -/
def pruneHour (now : ℤ) (bucket : List ℤ) : List ℤ :=
  bucket.filter (fun ts => decide (now - 3600 < ts))

/-- Line 78 of `rate_limiter.py`: the timestamps strictly inside the
trailing one-minute window (`ts > now - 1m`). -/
def recentMinute (now : ℤ) (bucket : List ℤ) : List ℤ :=
  bucket.filter (fun ts => decide (now - 60 < ts))

/-- `RateLimiter.check_rate_limit` for a single key.  The input `bucket` is
the list of previously recorded request timestamps for that key, oldest
first; the result is `some (newBucket, allowed, retryAfter)`.  `Option.none`
models the uncaught `IndexError` the source would raise at
`recent_minute[0]` or `bucket[0]` (reachable only with a zero limit and an
empty window). -/
def check_rate_limit (bucket : List ℤ) (now : ℤ)
    (requests_per_minute requests_per_hour : ℕ) :
    Option (List ℤ × Bool × Option ℤ) :=
  let bucket1 := pruneHour now bucket
  let recent := recentMinute now bucket1
  if requests_per_minute ≤ recent.length then
    match recent with
    | [] => none
    | oldest :: _ => some (bucket1, false, some (max 1 (oldest - (now - 60))))
  else if requests_per_hour ≤ bucket1.length then
    match bucket1 with
    | [] => none
    | oldest :: _ => some (bucket1, false, some (max 1 (oldest - (now - 3600))))
  else
    some (bucket1 ++ [now], true, none)

lemma check_minute_deny (bucket : List ℤ) (now : ℤ)
    (perMin perHour : ℕ) (oldest : ℤ) (rest : List ℤ)
    (hr : recentMinute now (pruneHour now bucket) = oldest :: rest)
    (hlen : perMin ≤ (oldest :: rest).length) :
    check_rate_limit bucket now perMin perHour =
      some (pruneHour now bucket, false, some (max 1 (oldest - (now - 60)))) := by
  unfold check_rate_limit
  simp only [hr, if_pos hlen]

lemma check_hour_deny (bucket : List ℤ) (now : ℤ)
    (perMin perHour : ℕ) (oldest : ℤ) (rest : List ℤ)
    (hlt : (recentMinute now (pruneHour now bucket)).length < perMin)
    (hp : pruneHour now bucket = oldest :: rest)
    (hlen : perHour ≤ (oldest :: rest).length) :
    check_rate_limit bucket now perMin perHour =
      some (pruneHour now bucket, false, some (max 1 (oldest - (now - 3600)))) := by
  unfold check_rate_limit
  rw [if_neg (by omega), hp, if_pos hlen]

lemma check_allow (bucket : List ℤ) (now : ℤ) (perMin perHour : ℕ)
    (hlt1 : (recentMinute now (pruneHour now bucket)).length < perMin)
    (hlt2 : (pruneHour now bucket).length < perHour) :
    check_rate_limit bucket now perMin perHour =
      some (pruneHour now bucket ++ [now], true, none) := by
  unfold check_rate_limit
  rw [if_neg (by omega), if_neg (by omega)]

lemma filter_gt_all (c : ℤ) (l : List ℤ) (h : ∀ x ∈ l, c < x) :
    l.filter (fun ts => decide (c < ts)) = l :=
  List.filter_eq_self.mpr (fun a ha => decide_eq_true (h a ha))

/-- Claim C1: `check_rate_limit` first prunes all timestamps outside the
trailing one-hour window; if the count of timestamps newer than `now - 1m`
reaches `perMinuteLimit` it denies with `retryAfter = oldest - (now - 1m)`
floored at 1 second; otherwise if the bucket size reaches `perHourLimit`
it denies symmetrically against the one-hour window; otherwise it appends
`now` and allows.  In particular, with `perMinuteLimit = 3`, four checks on
the same key within one second yield allow, allow, allow, deny, and the
fourth retry-after value is positive and at most 60. -/
theorem check_rate_limit_spec :
    (∀ (bucket : List ℤ) (now : ℤ) (perMin perHour : ℕ),
      (1 ≤ perMin → perMin ≤ (recentMinute now (pruneHour now bucket)).length →
        ∃ oldest rest, recentMinute now (pruneHour now bucket) = oldest :: rest ∧
          check_rate_limit bucket now perMin perHour =
            some (pruneHour now bucket, false, some (max 1 (oldest - (now - 60))))) ∧
      ((recentMinute now (pruneHour now bucket)).length < perMin →
        1 ≤ perHour → perHour ≤ (pruneHour now bucket).length →
        ∃ oldest rest, pruneHour now bucket = oldest :: rest ∧
          check_rate_limit bucket now perMin perHour =
            some (pruneHour now bucket, false, some (max 1 (oldest - (now - 3600))))) ∧
      ((recentMinute now (pruneHour now bucket)).length < perMin →
        (pruneHour now bucket).length < perHour →
        check_rate_limit bucket now perMin perHour =
          some (pruneHour now bucket ++ [now], true, none))) ∧
    (∀ t1 t2 t3 t4 : ℤ, t1 ≤ t2 → t2 ≤ t3 → t3 ≤ t4 → t4 ≤ t1 + 1 →
      check_rate_limit [] t1 3 1000 = some ([t1], true, none) ∧
      check_rate_limit [t1] t2 3 1000 = some ([t1, t2], true, none) ∧
      check_rate_limit [t1, t2] t3 3 1000 = some ([t1, t2, t3], true, none) ∧
      ∃ r, check_rate_limit [t1, t2, t3] t4 3 1000 =
          some ([t1, t2, t3], false, some r) ∧ 0 < r ∧ r ≤ 60) := by
  constructor
  · intro bucket now perMin perHour
    refine ⟨?_, ?_, ?_⟩
    · intro h1 h2
      have hne : recentMinute now (pruneHour now bucket) ≠ [] := by
        intro hnil
        rw [hnil] at h2
        simp at h2
        omega
      obtain ⟨o, rest, hr⟩ := List.exists_cons_of_ne_nil hne
      exact ⟨o, rest, hr, check_minute_deny bucket now perMin perHour o rest hr (hr ▸ h2)⟩
    · intro hlt h1 h2
      have hne : pruneHour now bucket ≠ [] := by
        intro hnil
        rw [hnil] at h2
        simp at h2
        omega
      obtain ⟨o, rest, hp⟩ := List.exists_cons_of_ne_nil hne
      exact ⟨o, rest, hp, check_hour_deny bucket now perMin perHour o rest hlt hp (hp ▸ h2)⟩
    · intro hlt1 hlt2
      exact check_allow bucket now perMin perHour hlt1 hlt2
  · intro t1 t2 t3 t4 h12 h23 h34 h41
    have ht21 : t2 ≤ t1 + 1 := by linarith
    have ht31 : t3 ≤ t1 + 1 := by linarith
    have hp1 : pruneHour t1 [] = [] := rfl
    have hp2 : pruneHour t2 [t1] = [t1] := by
      apply filter_gt_all
      intro x hx
      simp at hx
      subst hx
      linarith
    have hr2 : recentMinute t2 [t1] = [t1] := by
      apply filter_gt_all
      intro x hx
      simp at hx
      subst hx
      linarith
    have hp3 : pruneHour t3 [t1, t2] = [t1, t2] := by
      apply filter_gt_all
      intro x hx
      simp at hx
      rcases hx with h | h <;> subst h <;> linarith
    have hr3 : recentMinute t3 [t1, t2] = [t1, t2] := by
      apply filter_gt_all
      intro x hx
      simp at hx
      rcases hx with h | h <;> subst h <;> linarith
    have hp4 : pruneHour t4 [t1, t2, t3] = [t1, t2, t3] := by
      apply filter_gt_all
      intro x hx
      simp at hx
      rcases hx with h | h | h <;> subst h <;> linarith
    have hr4 : recentMinute t4 [t1, t2, t3] = [t1, t2, t3] := by
      apply filter_gt_all
      intro x hx
      simp at hx
      rcases hx with h | h | h <;> subst h <;> linarith
    refine ⟨?_, ?_, ?_, ?_⟩
    · have := check_allow [] t1 3 1000 (by simp [recentMinute, pruneHour]) (by simp [pruneHour])
      simpa [pruneHour] using this
    · have := check_allow [t1] t2 3 1000 (by rw [hp2, hr2]; norm_num) (by rw [hp2]; norm_num)
      rw [hp2] at this
      simpa using this
    · have := check_allow [t1, t2] t3 3 1000 (by rw [hp3, hr3]; norm_num) (by rw [hp3]; norm_num)
      rw [hp3] at this
      simpa using this
    · refine ⟨max 1 (t1 - (t4 - 60)), ?_, ?_, ?_⟩
      · have := check_minute_deny [t1, t2, t3] t4 3 1000 t1 [t2, t3]
          (by rw [hp4, hr4]) (by norm_num)
        rw [hp4] at this
        exact this
      · exact lt_of_lt_of_le one_pos (le_max_left _ _)
      · exact max_le (by norm_num) (by linarith)

/-- Witness for C1: four same-key checks at times 0, 0, 0, 0 with limits
(3, 1000) give allow, allow, allow, deny. -/
theorem check_rate_limit_spec_witness :
    check_rate_limit [] 0 3 1000 = some ([0], true, none) ∧
    check_rate_limit [0] 0 3 1000 = some ([0, 0], true, none) ∧
    check_rate_limit [0, 0] 0 3 1000 = some ([0, 0, 0], true, none) ∧
    ∃ r, check_rate_limit [0, 0, 0] 0 3 1000 =
        some ([0, 0, 0], false, some r) ∧ 0 < r ∧ r ≤ 60 :=
  check_rate_limit_spec.2 0 0 0 0 le_rfl le_rfl le_rfl (by decide)

/-- Claim C2: a denied `check_rate_limit` call does not record the request:
on the deny path the returned bucket is exactly the hour-pruned input
bucket (`now` is not appended), so every timestamp it holds was already in
the input bucket. -/
theorem check_rate_limit_deny_no_record :
    ∀ (bucket : List ℤ) (now : ℤ) (perMin perHour : ℕ)
      (newBucket : List ℤ) (ra : Option ℤ),
      check_rate_limit bucket now perMin perHour = some (newBucket, false, ra) →
      newBucket = pruneHour now bucket ∧ ∀ ts ∈ newBucket, ts ∈ bucket := by
  intro bucket now perMin perHour newBucket ra h
  have hmem : ∀ ts ∈ pruneHour now bucket, ts ∈ bucket := by
    intro ts hts
    exact (List.mem_filter.mp hts).1
  unfold check_rate_limit at h
  dsimp only at h
  split at h
  · split at h
    · exact absurd h (by simp)
    · simp only [Option.some.injEq, Prod.mk.injEq] at h
      have hb : newBucket = pruneHour now bucket := h.1.symm
      exact ⟨hb, hb ▸ hmem⟩
  · split at h
    · split at h
      · exact absurd h (by simp)
      · simp only [Option.some.injEq, Prod.mk.injEq] at h
        have hb : newBucket = pruneHour now bucket := h.1.symm
        exact ⟨hb, hb ▸ hmem⟩
    · simp only [Option.some.injEq, Prod.mk.injEq] at h
      exact absurd h.2.1 (by simp)

/-- Witness for C2: a concrete denied call (minute limit reached) returns
the pruned bucket unchanged. -/
theorem check_rate_limit_deny_no_record_witness :
    ([0, 0, 0] : List ℤ) = pruneHour 0 [0, 0, 0] ∧
    ∀ ts ∈ ([0, 0, 0] : List ℤ), ts ∈ ([0, 0, 0] : List ℤ) :=
  check_rate_limit_deny_no_record [0, 0, 0] 0 3 1000 [0, 0, 0] (some 60) (by decide)

/-! ## Circuit breaker (`CircuitBreaker`) -/

/-- The three breaker states (`rate_limiter.py` line 209). -/
inductive BState
  | CLOSED
  | OPEN
  | HALF_OPEN
deriving DecidableEq

/-- The mutable fields and configuration of a `CircuitBreaker` instance. -/
structure CircuitBreaker where
  failure_threshold : ℕ
  recovery_timeout : ℤ
  failure_count : ℕ
  last_failure_time : Option ℤ
  state : BState
deriving DecidableEq

/-- What the wrapped operation does when it is invoked: return normally,
throw an exception matching `expected_exception`, or throw one that does
not match. -/
inductive Outcome
  | success
  | failure
  | unexpected
deriving DecidableEq

/-- A Python exception value: the class it is constructed from and its
message. -/
structure PyException where
  className : String
  message : String
deriving DecidableEq

/-- The class of the fail-fast exception at line 220 of `rate_limiter.py`:
the built-in generic `Exception` class. -/
def genericExceptionClass : String := "Exception"

/-- How a `CircuitBreaker.call` terminates, as seen by the caller. -/
inductive CallResult
  | ok
  | fastFailRaised (e : PyException)
  | reRaised
  | raisedUnexpected
deriving DecidableEq

/-- The outcome of one `CircuitBreaker.call`: the updated breaker, whether
the wrapped operation was invoked, and how the call terminated. -/
structure CallRecord where
  breaker : CircuitBreaker
  invoked : Bool
  result : CallResult
deriving DecidableEq

/-- `CircuitBreaker._should_attempt_reset` (lines 244-250). -/
def should_attempt_reset (b : CircuitBreaker) (now : ℤ) : Bool :=
  match b.last_failure_time with
  | none => true
  | some t => decide (b.recovery_timeout ≤ now - t)

/-- `CircuitBreaker._reset` (lines 252-257). -/
def CircuitBreaker.reset (b : CircuitBreaker) : CircuitBreaker :=
  { b with state := BState.CLOSED, failure_count := 0, last_failure_time := none }

/-- The `try`/`except` body of `CircuitBreaker.call` (lines 222-242),
entered once the open-state gate has been passed. -/
def callBody (b : CircuitBreaker) (now : ℤ) (outcome : Outcome) : CallRecord :=
  match outcome with
  | Outcome.success =>
      if b.state = BState.HALF_OPEN then ⟨b.reset, true, CallResult.ok⟩
      else ⟨b, true, CallResult.ok⟩
  | Outcome.failure =>
      let b1 := { b with failure_count := b.failure_count + 1,
                         last_failure_time := some now }
      if b1.failure_threshold ≤ b1.failure_count then
        ⟨{ b1 with state := BState.OPEN }, true, CallResult.reRaised⟩
      else ⟨b1, true, CallResult.reRaised⟩
  | Outcome.unexpected => ⟨b, true, CallResult.raisedUnexpected⟩

/-- `CircuitBreaker.call` (lines 211-242): the open-state gate followed by
the protected invocation. -/
def CircuitBreaker.call (b : CircuitBreaker) (now : ℤ) (outcome : Outcome) :
    CallRecord :=
  if b.state = BState.OPEN then
    if should_attempt_reset b now then
      callBody { b with state := BState.HALF_OPEN } now outcome
    else
      ⟨b, false, CallResult.fastFailRaised
        ⟨genericExceptionClass, "Circuit breaker is OPEN. Service unavailable."⟩⟩
  else callBody b now outcome

/-- The breaker left behind by two recognized failing calls. -/
def twoFailures (b : CircuitBreaker) (t1 t2 : ℤ) : CircuitBreaker :=
  ((b.call t1 Outcome.failure).breaker.call t2 Outcome.failure).breaker

lemma twoFailures_eq (rt : ℤ) (lft : Option ℤ) (t1 t2 : ℤ) :
    twoFailures ⟨2, rt, 0, lft, BState.CLOSED⟩ t1 t2 =
      ⟨2, rt, 2, some t2, BState.OPEN⟩ := rfl

/-- Claim C3: with `failureThreshold = 2`, two consecutive recognized
failures open the breaker; while open, a call before `recoveryTimeout`
has elapsed since the last failure fails fast without invoking the
operation and leaves the breaker unchanged; a call after the timeout
invokes the operation (as the half-open trial), and a success during that
trial resets `failureCount` to 0, clears `lastFailureAt`, and closes the
breaker. -/
theorem circuit_breaker_threshold_scenario :
    ∀ (b : CircuitBreaker) (t1 t2 : ℤ),
      b.failure_threshold = 2 → b.state = BState.CLOSED → b.failure_count = 0 →
      (twoFailures b t1 t2).state = BState.OPEN ∧
      (twoFailures b t1 t2).last_failure_time = some t2 ∧
      (∀ t3 o, t3 - t2 < b.recovery_timeout →
        (twoFailures b t1 t2).call t3 o =
          ⟨twoFailures b t1 t2, false, CallResult.fastFailRaised
            ⟨genericExceptionClass,
              "Circuit breaker is OPEN. Service unavailable."⟩⟩) ∧
      (∀ t4 o, b.recovery_timeout ≤ t4 - t2 →
        ((twoFailures b t1 t2).call t4 o).invoked = true) ∧
      (∀ t4, b.recovery_timeout ≤ t4 - t2 →
        ((twoFailures b t1 t2).call t4 Outcome.unexpected).breaker.state =
          BState.HALF_OPEN ∧
        ((twoFailures b t1 t2).call t4 Outcome.success).breaker =
          ⟨b.failure_threshold, b.recovery_timeout, 0, none, BState.CLOSED⟩) := by
  intro b t1 t2 hthr hst hfc
  obtain ⟨thr, rt, fc, lft, st⟩ := b
  simp only at hthr hst hfc
  subst hthr hst hfc
  rw [twoFailures_eq]
  dsimp only
  refine ⟨rfl, rfl, ?_, ?_, ?_⟩
  · intro t3 o h3
    have hs : should_attempt_reset ⟨2, rt, 2, some t2, BState.OPEN⟩ t3 = false := by
      simp only [should_attempt_reset, decide_eq_false_iff_not]
      omega
    simp [CircuitBreaker.call, hs]
  · intro t4 o h4
    have hs : should_attempt_reset ⟨2, rt, 2, some t2, BState.OPEN⟩ t4 = true := by
      simp only [should_attempt_reset, decide_eq_true_eq]
      omega
    cases o <;> simp [CircuitBreaker.call, hs, callBody]
  · intro t4 h4
    have hs : should_attempt_reset ⟨2, rt, 2, some t2, BState.OPEN⟩ t4 = true := by
      simp only [should_attempt_reset, decide_eq_true_eq]
      omega
    constructor
    · simp [CircuitBreaker.call, hs, callBody]
    · simp [CircuitBreaker.call, hs, callBody, CircuitBreaker.reset]

/-- Witness for C3: a concrete breaker with threshold 2 and recovery
timeout 60, failing at times 0 and 1: open at time 2, fail-fast; at time
61 the trial is invoked and a success closes and resets the breaker. -/
theorem circuit_breaker_threshold_scenario_witness :
    (twoFailures ⟨2, 60, 0, none, BState.CLOSED⟩ 0 1).state = BState.OPEN ∧
    (twoFailures ⟨2, 60, 0, none, BState.CLOSED⟩ 0 1).call 2 Outcome.success =
      ⟨twoFailures ⟨2, 60, 0, none, BState.CLOSED⟩ 0 1, false,
        CallResult.fastFailRaised
          ⟨genericExceptionClass,
            "Circuit breaker is OPEN. Service unavailable."⟩⟩ ∧
    ((twoFailures ⟨2, 60, 0, none, BState.CLOSED⟩ 0 1).call 61
        Outcome.success).invoked = true ∧
    ((twoFailures ⟨2, 60, 0, none, BState.CLOSED⟩ 0 1).call 61
        Outcome.success).breaker = ⟨2, 60, 0, none, BState.CLOSED⟩ := by
  obtain ⟨h1, h2, h3, h4, h5⟩ :=
    circuit_breaker_threshold_scenario ⟨2, 60, 0, none, BState.CLOSED⟩ 0 1 rfl rfl rfl
  exact ⟨h1, h3 2 Outcome.success (by decide), h4 61 Outcome.success (by decide),
    (h5 61 (by decide)).2⟩

/-- Fold a sequence of timed call outcomes through the breaker. -/
def runCalls (b : CircuitBreaker) : List (ℤ × Outcome) → CircuitBreaker
  | [] => b
  | (t, o) :: rest => runCalls ((b.call t o).breaker) rest

/-- Total number of recognized failures in a call sequence. -/
def countFailures (steps : List (ℤ × Outcome)) : ℕ :=
  (steps.filter (fun s => decide (s.2 = Outcome.failure))).length

def longestFailRunAux : List Outcome → ℕ → ℕ → ℕ
  | [], cur, best => max cur best
  | o :: rest, cur, best =>
      if o = Outcome.failure then longestFailRunAux rest (cur + 1) best
      else longestFailRunAux rest 0 (max cur best)

/-- Length of the longest run of consecutive recognized failures. -/
def longestFailRun (l : List Outcome) : ℕ := longestFailRunAux l 0 0

/-- Counterexample for C4: with `failureThreshold = 2`, the sequence
failure, success, failure has no run of 2 consecutive recognized failures,
yet the breaker ends in the open state, because a success in the closed
state does not reset `failureCount`. -/
theorem breaker_opens_without_consecutive_failures :
    longestFailRun
        ([((0:ℤ), Outcome.failure), (1, Outcome.success),
          (2, Outcome.failure)].map Prod.snd) = 1 ∧
    1 < 2 ∧
    (runCalls ⟨2, 60, 0, none, BState.CLOSED⟩
        [((0:ℤ), Outcome.failure), (1, Outcome.success),
          (2, Outcome.failure)]).state = BState.OPEN := by
  decide

/-- Claim C4 (amended): starting from a closed breaker with zero failure
count, the breaker stays closed as long as the total number of recognized
failures in the call sequence — consecutive or not, since a success in
the closed state does not reset the counter — stays below
`failureThreshold`, and its failure count equals that total. -/
theorem breaker_total_failures_below_threshold_stays_closed :
    ∀ (steps : List (ℤ × Outcome)) (b : CircuitBreaker),
      b.state = BState.CLOSED →
      b.failure_count + countFailures steps < b.failure_threshold →
      (runCalls b steps).state = BState.CLOSED ∧
      (runCalls b steps).failure_count = b.failure_count + countFailures steps := by
  intro steps
  induction steps with
  | nil =>
      intro b h1 h2
      exact ⟨h1, by simp [countFailures, runCalls]⟩
  | cons s rest ih =>
      obtain ⟨t, o⟩ := s
      intro b h1 h2
      cases o with
      | success =>
          have hb : (b.call t Outcome.success).breaker = b := by
            simp [CircuitBreaker.call, callBody, h1]
          have hcf : countFailures ((t, Outcome.success) :: rest) =
              countFailures rest := by simp [countFailures]
          rw [hcf] at h2
          have := ih b h1 h2
          simpa [runCalls, hb, hcf] using this
      | failure =>
          have hcf : countFailures ((t, Outcome.failure) :: rest) =
              1 + countFailures rest := by
            simp [countFailures]
            omega
          rw [hcf] at h2
          have hb : (b.call t Outcome.failure).breaker =
              { b with failure_count := b.failure_count + 1,
                       last_failure_time := some t } := by
            have hnot : ¬ (b.failure_threshold ≤ b.failure_count + 1) := by omega
            simp [CircuitBreaker.call, callBody, h1, hnot]
          have hih := ih ⟨b.failure_threshold, b.recovery_timeout,
              b.failure_count + 1, some t, b.state⟩ h1
            (show b.failure_count + 1 + countFailures rest < b.failure_threshold by omega)
          rw [runCalls, hb, hcf]
          refine ⟨hih.1, ?_⟩
          rw [hih.2]
          dsimp only
          omega
      | unexpected =>
          have hb : (b.call t Outcome.unexpected).breaker = b := by
            simp [CircuitBreaker.call, callBody, h1]
          have hcf : countFailures ((t, Outcome.unexpected) :: rest) =
              countFailures rest := by simp [countFailures]
          rw [hcf] at h2
          have := ih b h1 h2
          simpa [runCalls, hb, hcf] using this

/-- Witness for the amended C4: one failure against threshold 2 leaves the
breaker closed with failure count 1. -/
theorem breaker_total_failures_witness :
    (runCalls ⟨2, 60, 0, none, BState.CLOSED⟩ [((0:ℤ), Outcome.failure)]).state =
      BState.CLOSED ∧
    (runCalls ⟨2, 60, 0, none, BState.CLOSED⟩
        [((0:ℤ), Outcome.failure)]).failure_count =
      0 + countFailures [((0:ℤ), Outcome.failure)] :=
  breaker_total_failures_below_threshold_stays_closed
    [((0:ℤ), Outcome.failure)] ⟨2, 60, 0, none, BState.CLOSED⟩ rfl (by decide)

/-- Counterexample for C5: the open-circuit fail-fast path raises the
built-in generic `Exception` class with a fixed message; two breakers with
entirely different configurations (hence protecting different services)
produce the identical exception value, so the rejection carries no service
name and is not a dedicated error kind. -/
theorem circuit_open_rejection_counterexample :
    ((⟨5, 60, 5, some 0, BState.OPEN⟩ : CircuitBreaker).call 10
        Outcome.success).result =
      CallResult.fastFailRaised
        ⟨genericExceptionClass, "Circuit breaker is OPEN. Service unavailable."⟩ ∧
    ((⟨5, 60, 5, some 0, BState.OPEN⟩ : CircuitBreaker).call 10
        Outcome.success).result =
      ((⟨2, 30, 2, some 0, BState.OPEN⟩ : CircuitBreaker).call 10
          Outcome.success).result ∧
    ((⟨5, 60, 5, some 0, BState.OPEN⟩ : CircuitBreaker).call 10
        Outcome.success).invoked = false := by
  decide

/-- Claim C5 (amended): when the breaker is open and the recovery timeout
has not elapsed, `call` rejects by raising the plain generic `Exception`
class with the fixed message `Circuit breaker is OPEN. Service
unavailable.`; the same exception value for every breaker and every
operation, carrying no service name, with the operation never invoked and
the breaker left unchanged. -/
theorem circuit_open_rejection_generic :
    ∀ (b : CircuitBreaker) (now : ℤ) (o : Outcome),
      b.state = BState.OPEN → should_attempt_reset b now = false →
      b.call now o =
        ⟨b, false, CallResult.fastFailRaised
          ⟨genericExceptionClass,
            "Circuit breaker is OPEN. Service unavailable."⟩⟩ := by
  intro b now o h1 h2
  simp [CircuitBreaker.call, h1, h2]

/-- Witness for the amended C5: a concrete open breaker inside its
recovery window rejects with the generic exception. -/
theorem circuit_open_rejection_generic_witness :
    (⟨5, 60, 5, some 0, BState.OPEN⟩ : CircuitBreaker).call 10 Outcome.success =
      ⟨⟨5, 60, 5, some 0, BState.OPEN⟩, false, CallResult.fastFailRaised
        ⟨genericExceptionClass,
          "Circuit breaker is OPEN. Service unavailable."⟩⟩ :=
  circuit_open_rejection_generic ⟨5, 60, 5, some 0, BState.OPEN⟩ 10
    Outcome.success rfl (by decide)

/-! ## Graceful shutdown (`shutdown_manager.py`) -/

/-- The drain-relevant state of `GracefulShutdownManager`
(`shutting_down`, `active_requests`; lines 27-28). -/
structure DrainState where
  shutting_down : Bool
  active_requests : ℤ
deriving DecidableEq

/-- Middleware admission bookkeeping (line 212). -/
def requestEnter (s : DrainState) : DrainState :=
  { s with active_requests := s.active_requests + 1 }

/-- The `finally` decrement (line 217), applied unconditionally once a
request was admitted. -/
def requestExit (s : DrainState) : DrainState :=
  { s with active_requests := s.active_requests - 1 }

/-- How one pass through the middleware ends. -/
inductive DispatchResult
  | rejected (status : ℕ)
  | completed
  | handlerRaised
deriving DecidableEq

/-- `ActiveRequestTrackerMiddleware.dispatch` (lines 200-219) for one whole
request: rejection check, increment, handler (which may throw), `finally`
decrement. -/
def dispatch (s : DrainState) (handlerRaises : Bool) :
    DrainState × DispatchResult :=
  if s.shutting_down then (s, DispatchResult.rejected 503)
  else
    (requestExit (requestEnter s),
      if handlerRaises then DispatchResult.handlerRaised
      else DispatchResult.completed)

/-- The state-mutating events of the shutdown manager and middleware, for
interleaved executions: `on_startup` (line 37), the flag assignment of
`on_shutdown` (line 48), the admission step of `dispatch`, and the
`finally` decrement of an admitted request. -/
inductive DrainEvent
  | startup
  | shutdownSignal
  | enter
  | leave
deriving DecidableEq

def drainStep (s : DrainState) : DrainEvent → DrainState
  | DrainEvent.startup => s
  | DrainEvent.shutdownSignal => { s with shutting_down := true }
  | DrainEvent.enter => if s.shutting_down then s else requestEnter s
  | DrainEvent.leave => requestExit s

def runDrain (s : DrainState) : List DrainEvent → DrainState
  | [] => s
  | e :: rest => runDrain (drainStep s e) rest

/-- Claim C6: `shutting_down` is monotonic (no event ever resets it);
while it is set, `dispatch` rejects with 503 and leaves the state — in
particular `active_requests` — untouched; an admitted request increments
`active_requests` by one and its `finally` decrement is applied exactly
once whether or not the handler throws; and a request admitted before the
shutdown signal still gets its decrement afterwards. -/
theorem shutdown_flag_monotone_and_drain :
    (∀ (s : DrainState) (evs : List DrainEvent),
      s.shutting_down = true → (runDrain s evs).shutting_down = true) ∧
    (∀ (s : DrainState) (hr : Bool), s.shutting_down = true →
      dispatch s hr = (s, DispatchResult.rejected 503)) ∧
    (∀ (s : DrainState) (hr : Bool), s.shutting_down = false →
      dispatch s hr = (requestExit (requestEnter s),
        if hr then DispatchResult.handlerRaised else DispatchResult.completed) ∧
      (requestEnter s).active_requests = s.active_requests + 1 ∧
      (requestExit (requestEnter s)).active_requests = s.active_requests) ∧
    (∀ s : DrainState, s.shutting_down = false →
      runDrain s [DrainEvent.enter, DrainEvent.shutdownSignal, DrainEvent.leave] =
        ⟨true, s.active_requests⟩) := by
  refine ⟨?_, ?_, ?_, ?_⟩
  · intro s evs h
    induction evs generalizing s with
    | nil => exact h
    | cons e rest ih =>
        apply ih
        cases e <;> simp [drainStep, requestEnter, requestExit, h]
  · intro s hr h
    simp [dispatch, h]
  · intro s hr h
    refine ⟨by simp [dispatch, h], rfl, ?_⟩
    simp [requestEnter, requestExit]
  · intro s h
    simp [runDrain, drainStep, requestEnter, requestExit, h]

/-- Witness for C6: concrete states exercising each conjunct. -/
theorem shutdown_flag_monotone_and_drain_witness :
    (runDrain ⟨true, 0⟩ [DrainEvent.enter]).shutting_down = true ∧
    dispatch ⟨true, 5⟩ false = (⟨true, 5⟩, DispatchResult.rejected 503) ∧
    dispatch ⟨false, 5⟩ true = (requestExit (requestEnter ⟨false, 5⟩),
      if true then DispatchResult.handlerRaised else DispatchResult.completed) ∧
    runDrain ⟨false, 0⟩
        [DrainEvent.enter, DrainEvent.shutdownSignal, DrainEvent.leave] =
      ⟨true, 0⟩ := by
  obtain ⟨h1, h2, h3, h4⟩ := shutdown_flag_monotone_and_drain
  exact ⟨h1 ⟨true, 0⟩ [DrainEvent.enter] rfl, h2 ⟨true, 5⟩ false rfl,
    (h3 ⟨false, 5⟩ true rfl).1, h4 ⟨false, 0⟩ rfl⟩

/-- A registered teardown callback: its name, whether it is a coroutine
function (line 106), how long it would run to completion, and whether it
throws. -/
structure Callback where
  name : String
  is_coroutine : Bool
  duration : ℤ
  throws : Bool
deriving DecidableEq

/-- How one callback execution is recorded by the loop body
(lines 101-116). -/
inductive CbResult
  | completed
  | failedTimeout
  | failedException
deriving DecidableEq

/-- One iteration of `_run_shutdown_callbacks`: a coroutine callback runs
under `asyncio.wait_for(callback(), timeout=10)` and is cancelled after 10
seconds; a synchronous callback is invoked directly, with no timeout.  The
second component is the time the callback occupies. -/
def runCallback (cb : Callback) : CbResult × ℤ :=
  if cb.is_coroutine then
    if 10 < cb.duration then (CbResult.failedTimeout, 10)
    else if cb.throws then (CbResult.failedException, cb.duration)
    else (CbResult.completed, cb.duration)
  else if cb.throws then (CbResult.failedException, cb.duration)
  else (CbResult.completed, cb.duration)

/-- `GracefulShutdownManager._run_shutdown_callbacks` (lines 97-116): every
registered callback is attempted in registration order; a timeout or
exception is caught, logged and recorded, and the loop continues. -/
def run_shutdown_callbacks (cbs : List Callback) : List (String × CbResult) :=
  cbs.map (fun cb => (cb.name, (runCallback cb).1))

/-- The tail of `on_shutdown` (lines 53-57): the callback loop followed by
`_final_cleanup`, which is always reached because every per-callback
exception is caught inside the loop. -/
structure ShutdownRun where
  results : List (String × CbResult)
  final_cleanup_ran : Bool
deriving DecidableEq

def on_shutdown_run (cbs : List Callback) : ShutdownRun :=
  { results := run_shutdown_callbacks cbs, final_cleanup_ran := true }

/-- Counterexample for C7: a synchronous callback is not bounded by any
timeout — a sync callback that would take 3600 seconds runs to completion
and occupies all 3600 seconds, far beyond the 10-second limit that bounds
coroutine callbacks (the only timeout in the code). -/
theorem sync_callback_unbounded_counterexample :
    runCallback ⟨"close_database", false, 3600, false⟩ =
      (CbResult.completed, 3600) ∧
    ¬ ((runCallback ⟨"close_database", false, 3600, false⟩).2 ≤ 10) := by
  decide

/-- Claim C7 (amended): during shutdown every registered callback is
executed exactly once, in registration order; a coroutine callback is
bounded by the fixed 10-second timeout (synchronous callbacks run
unbounded); and a callback that times out or throws is recorded as failed
but prevents neither the remaining callbacks nor the final cleanup from
running. -/
theorem shutdown_callbacks_order_isolated :
    ∀ cbs : List Callback,
      (run_shutdown_callbacks cbs).map Prod.fst = cbs.map Callback.name ∧
      (∀ front c back, cbs = front ++ c :: back →
        run_shutdown_callbacks cbs =
          run_shutdown_callbacks front ++
            (c.name, (runCallback c).1) :: run_shutdown_callbacks back) ∧
      (∀ cb ∈ cbs, cb.is_coroutine = true → (runCallback cb).2 ≤ 10) ∧
      (on_shutdown_run cbs).results = run_shutdown_callbacks cbs ∧
      (on_shutdown_run cbs).final_cleanup_ran = true := by
  intro cbs
  refine ⟨?_, ?_, ?_, rfl, rfl⟩
  · simp [run_shutdown_callbacks]
  · intro front c back hsplit
    subst hsplit
    simp [run_shutdown_callbacks]
  · intro cb hmem hco
    unfold runCallback
    rw [hco]
    by_cases hd : 10 < cb.duration
    · simp [hd]
    · by_cases ht : cb.throws = true <;> simp [hd, ht] <;> omega

/-- Witness for the amended C7: three callbacks — a coroutine that would
run 20 seconds (times out), a sync one that throws, a healthy coroutine —
all recorded in order, the coroutine bounded by 10 seconds, cleanup
reached. -/
theorem shutdown_callbacks_order_isolated_witness :
    (run_shutdown_callbacks
        [⟨"flush_cache", true, 20, false⟩, ⟨"close_database", false, 1, true⟩,
          ⟨"stop_worker", true, 1, false⟩]).map Prod.fst =
      ["flush_cache", "close_database", "stop_worker"] ∧
    run_shutdown_callbacks
        [⟨"flush_cache", true, 20, false⟩, ⟨"close_database", false, 1, true⟩,
          ⟨"stop_worker", true, 1, false⟩] =
      run_shutdown_callbacks [⟨"flush_cache", true, 20, false⟩] ++
        (("close_database" : String),
            (runCallback ⟨"close_database", false, 1, true⟩).1) ::
          run_shutdown_callbacks [⟨"stop_worker", true, 1, false⟩] ∧
    (runCallback ⟨"flush_cache", true, 20, false⟩).2 ≤ 10 ∧
    (on_shutdown_run
        [⟨"flush_cache", true, 20, false⟩, ⟨"close_database", false, 1, true⟩,
          ⟨"stop_worker", true, 1, false⟩]).final_cleanup_ran = true := by
  obtain ⟨h1, h2, h3, _, h5⟩ := shutdown_callbacks_order_isolated
    [⟨"flush_cache", true, 20, false⟩, ⟨"close_database", false, 1, true⟩,
      ⟨"stop_worker", true, 1, false⟩]
  refine ⟨h1.trans (by decide), ?_, h3 ⟨"flush_cache", true, 20, false⟩ (by decide) rfl, h5⟩
  exact h2 [⟨"flush_cache", true, 20, false⟩] ⟨"close_database", false, 1, true⟩
    [⟨"stop_worker", true, 1, false⟩] rfl

/-! ## TTL cache (`caching.py`) -/

/-- A cache entry: the dict literal built by `InMemoryCache.set`
(lines 57-61).  The stored value is a Python object; `Option.none` models
the Python value `None`. -/
structure CacheEntry (α : Type) where
  value : Option α
  expires_at : ℤ
  created_at : ℤ
deriving DecidableEq

/-- An `InMemoryCache` instance: the default TTL `max_age_seconds` and the
backing dict `self.data`, modelled as a partial map from keys. -/
structure InMemoryCache (α : Type) where
  max_age : ℤ
  data : String → Option (CacheEntry α)

/-- Pointwise dict update (`self.data[key] = ...`). -/
def mapSet {β : Type} (d : String → Option β) (k : String) (v : β) :
    String → Option β :=
  fun x => if x = k then some v else d x

/-- Pointwise dict deletion (`del self.data[key]`). -/
def mapRemove {β : Type} (d : String → Option β) (k : String) :
    String → Option β :=
  fun x => if x = k then none else d x

/-- Python `max_age or self.max_age` (lines 59 and 97): both `None` and
`0` are falsy, so both select the default. -/
def pyOrDefault (max_age : Option ℤ) (dflt : ℤ) : ℤ :=
  match max_age with
  | none => dflt
  | some n => if n = 0 then dflt else n

/-- `InMemoryCache.get` (lines 38-52): absent key gives `None`; an entry
whose `expires_at` has passed is deleted and `None` returned; otherwise
the stored value is returned and nothing is mutated. -/
def InMemoryCache.get {α : Type} (c : InMemoryCache α) (key : String)
    (now : ℤ) : InMemoryCache α × Option α :=
  match c.data key with
  | none => (c, none)
  | some item =>
      if item.expires_at < now then
        ({ c with data := mapRemove c.data key }, none)
      else (c, item.value)

/-- `InMemoryCache.set` (lines 54-62): insert or replace with
`expires_at = now + (max_age or self.max_age)`. -/
def InMemoryCache.set {α : Type} (c : InMemoryCache α) (key : String)
    (value : Option α) (max_age : Option ℤ) (now : ℤ) : InMemoryCache α :=
  { c with data :=
      mapSet c.data key ⟨value, now + pyOrDefault max_age c.max_age, now⟩ }

/-- One invocation of the wrapper produced by `InMemoryCache.cached`
(lines 80-102): `cache_key` is the key derived from the function name and
arguments, `result` is what the wrapped function would return when
executed.  The last output records whether the wrapped function was
executed: a cached value that `is not None` short-circuits it. -/
def cachedCall {α : Type} (c : InMemoryCache α) (cache_key : String)
    (result : Option α) (max_age : Option ℤ) (now : ℤ) :
    InMemoryCache α × Option α × Bool :=
  let g := c.get cache_key now
  match g.2 with
  | some v => (g.1, some v, false)
  | none =>
      (g.1.set cache_key result (some (pyOrDefault max_age c.max_age)) now,
        result, true)

/-- Claim C8: `set(k, v, ttl)` followed immediately by `get(k)` returns
`v` with no mutation; once time has advanced past the entry `expires_at`,
`get(k)` returns absent and removes exactly that key, with no other side
effect. -/
theorem cache_set_then_get :
    ∀ (α : Type) (c : InMemoryCache α) (k : String) (v : Option α)
      (ttl : Option ℤ) (now : ℤ),
      0 ≤ pyOrDefault ttl c.max_age →
      ((c.set k v ttl now).get k now).2 = v ∧
      ((c.set k v ttl now).get k now).1 = c.set k v ttl now ∧
      (∀ t2, now + pyOrDefault ttl c.max_age < t2 →
        (c.set k v ttl now).get k t2 =
          ({ c.set k v ttl now with
              data := mapRemove (c.set k v ttl now).data k }, none) ∧
        ((c.set k v ttl now).get k t2).1.data k = none) := by
  intro α c k v ttl now h0
  have hdata : (c.set k v ttl now).data k =
      some ⟨v, now + pyOrDefault ttl c.max_age, now⟩ := by
    simp [InMemoryCache.set, mapSet]
  refine ⟨?_, ?_, ?_⟩
  · unfold InMemoryCache.get
    rw [hdata]
    dsimp only
    rw [if_neg (by omega)]
  · unfold InMemoryCache.get
    rw [hdata]
    dsimp only
    rw [if_neg (by omega)]
  · intro t2 h2
    have hget : (c.set k v ttl now).get k t2 =
        ({ c.set k v ttl now with
            data := mapRemove (c.set k v ttl now).data k }, none) := by
      unfold InMemoryCache.get
      rw [hdata]
      dsimp only
      rw [if_pos (by omega)]
    refine ⟨hget, ?_⟩
    rw [hget]
    simp [mapRemove]

/-- Witness for C8: a concrete cache with default TTL 300; set at time 0
with ttl 1, read back at time 0, expired read at time 2. -/
theorem cache_set_then_get_witness :
    (((⟨300, fun _ => none⟩ : InMemoryCache ℤ).set "k" (some 42) (some 1) 0).get
        "k" 0).2 = some 42 ∧
    ((((⟨300, fun _ => none⟩ : InMemoryCache ℤ).set "k" (some 42) (some 1) 0).get
        "k" 2).1.data) "k" = none := by
  obtain ⟨h1, h2, h3⟩ := cache_set_then_get ℤ ⟨300, fun _ => none⟩ "k" (some 42)
    (some 1) 0 (by decide)
  exact ⟨h1, (h3 2 (by decide)).2⟩

/-- The entry stored under `key`, if any, holds the Python value `None`. -/
def NoneAt {α : Type} (c : InMemoryCache α) (key : String) : Prop :=
  ∀ e, c.data key = some e → e.value = none

/-- Claim C9: a stored `None` is indistinguishable from absence — `get`
returns `None` both for a missing key and for a fresh entry whose value is
`None` — and therefore the memoizing `cached` wrapper treats a `None`
result as a miss: whenever the lookup yields `None` the wrapped function
is executed, and storing a `None` result keeps the key in that state, so
every later invocation executes the function again. -/
theorem cache_none_indistinguishable :
    (∀ (α : Type) (c : InMemoryCache α) (k : String) (now : ℤ) (e : CacheEntry α),
      c.data k = some e → e.value = none → ¬ (e.expires_at < now) →
      (c.get k now).2 = none) ∧
    (∀ (α : Type) (c : InMemoryCache α) (k : String) (now : ℤ),
      c.data k = none → (c.get k now).2 = none) ∧
    (∀ (α : Type) (c : InMemoryCache α) (key : String) (res : Option α)
      (ma : Option ℤ) (now : ℤ),
      (c.get key now).2 = none → (cachedCall c key res ma now).2.2 = true) ∧
    (∀ (α : Type) (c : InMemoryCache α) (key : String) (ma : Option ℤ) (now : ℤ),
      NoneAt c key →
      (cachedCall c key none ma now).2.2 = true ∧
      NoneAt (cachedCall c key none ma now).1 key) := by
  have hget : ∀ (α : Type) (c : InMemoryCache α) (k : String) (now : ℤ),
      NoneAt c k → (c.get k now).2 = none := by
    intro α c k now hn
    unfold InMemoryCache.get
    cases hd : c.data k with
    | none => rfl
    | some e =>
        dsimp only
        split
        · rfl
        · exact hn e hd
  refine ⟨?_, ?_, ?_, ?_⟩
  · intro α c k now e hd hv hfresh
    unfold InMemoryCache.get
    rw [hd]
    dsimp only
    rw [if_neg hfresh]
    exact hv
  · intro α c k now hd
    unfold InMemoryCache.get
    rw [hd]
  · intro α c key res ma now hmiss
    unfold cachedCall
    dsimp only
    rw [hmiss]
  · intro α c key ma now hn
    have hmiss : (c.get key now).2 = none := hget α c key now hn
    constructor
    · unfold cachedCall
      dsimp only
      rw [hmiss]
    · unfold cachedCall
      dsimp only
      rw [hmiss]
      dsimp only
      intro e he
      simp [InMemoryCache.set, mapSet] at he
      rw [← he]

/-- Witness for C9: a cache holding a fresh `None`-valued entry under
`"k"` reads back `None` just like the missing key `"other"`, and the
wrapper executes the function. -/
theorem cache_none_indistinguishable_witness :
    ((⟨300, mapSet (fun _ => none) "k" ⟨none, 100, 0⟩⟩ : InMemoryCache ℤ).get
        "k" 50).2 = none ∧
    ((⟨300, mapSet (fun _ => none) "k" ⟨none, 100, 0⟩⟩ : InMemoryCache ℤ).get
        "other" 50).2 = none ∧
    (cachedCall (⟨300, mapSet (fun _ => none) "k" ⟨none, 100, 0⟩⟩ : InMemoryCache ℤ)
        "k" none none 50).2.2 = true := by
  obtain ⟨h1, h2, h3, h4⟩ := cache_none_indistinguishable
  refine ⟨h1 ℤ _ "k" 50 ⟨none, 100, 0⟩ rfl rfl (by decide), h2 ℤ _ "other" 50 rfl, ?_⟩
  exact (h4 ℤ _ "k" none 50 (by intro e he; cases Option.some.inj he; rfl)).1

/-- Claim C10: an explicit ttl of 0 is silently replaced by the default:
`set(k, v, 0)` stores `expires_at = now + defaultTTL` — the same entry as
`set(k, v, None)` — because of the falsiness coalescing
`max_age or self.max_age`; the entry is not immediately expired whenever
the default TTL is positive; and the `cached` wrapper with `max_age = 0`
stores a miss with the default TTL as well. -/
theorem cache_zero_ttl_uses_default :
    ∀ (α : Type) (c : InMemoryCache α) (k : String) (v : Option α) (now : ℤ),
      c.set k v (some 0) now = c.set k v none now ∧
      (c.set k v (some 0) now).data k = some ⟨v, now + c.max_age, now⟩ ∧
      (0 < c.max_age →
        ((c.set k v (some 0) now).get k now).2 = v) ∧
      (c.data k = none →
        (cachedCall c k v (some 0) now).1.data k =
          some ⟨v, now + c.max_age, now⟩) := by
  intro α c k v now
  have hdata : (c.set k v (some 0) now).data k =
      some ⟨v, now + c.max_age, now⟩ := by
    simp [InMemoryCache.set, mapSet, pyOrDefault]
  refine ⟨rfl, hdata, ?_, ?_⟩
  · intro hpos
    unfold InMemoryCache.get
    rw [hdata]
    dsimp only
    rw [if_neg (by omega)]
  · intro hmiss
    unfold cachedCall
    have hget : (c.get k now).2 = none := by
      unfold InMemoryCache.get
      rw [hmiss]
    have hget1 : (c.get k now).1 = c := by
      unfold InMemoryCache.get
      rw [hmiss]
    dsimp only
    rw [hget]
    dsimp only
    rw [hget1]
    simp [InMemoryCache.set, mapSet, pyOrDefault, ite_self]

/-- Witness for C10: with default TTL 300, `set("k", 7, ttl := 0)` at time
0 stores expiry 300 and an immediate read returns the value. -/
theorem cache_zero_ttl_uses_default_witness :
    ((⟨300, fun _ => none⟩ : InMemoryCache ℤ).set "k" (some 7) (some 0) 0).data
        "k" = some ⟨some 7, 0 + 300, 0⟩ ∧
    ((((⟨300, fun _ => none⟩ : InMemoryCache ℤ).set "k" (some 7) (some 0) 0).get
        "k" 0).2 = some 7) := by
  obtain ⟨h1, h2, h3, h4⟩ := cache_zero_ttl_uses_default ℤ ⟨300, fun _ => none⟩
    "k" (some 7) 0
  exact ⟨h2, h3 (by decide)⟩
